import Mathlib

/-!
Verification of the Supreme Court decision tracker pipeline.

Shallow embedding of `supreme_court_decisions.py` (the "Version C" tracker)
and `supreme_court_analyzer.py` (the "Version A" analyzer), with theorems
settling the specification claims about the fetch → deduplicate → classify →
persist pipeline.

Python strings are modelled as `List Char`; Python string methods
(`startswith`, `strip`, `split`, `in`) are modelled by executable char-list
functions below.
-/

set_option maxRecDepth 20000
set_option linter.unusedVariables false

namespace CourtTracker

/-- Python `s.startswith(pfx)` on char lists: first argument is the candidate
starting sequence. -/
def startsWithChars : List Char → List Char → Bool
  | [], _ => true
  | _ :: _, [] => false
  | p :: ps, c :: cs => p == c && startsWithChars ps cs

/-- Whitespace characters stripped by Python `str.strip()` (the ones that can
occur in the modelled data). -/
def isSpaceChar (c : Char) : Bool :=
  c == ' ' || c == '\t' || c == '\n' || c == '\r'

/-- Python `str.strip()`: drop whitespace from both ends. -/
def pyStrip (s : List Char) : List Char :=
  ((s.dropWhile isSpaceChar).reverse.dropWhile isSpaceChar).reverse

/-- The suffix of `s` after its first `':'` (empty if there is none).
Models `line.split(':', 1)[1]`, which in the source is only evaluated on
lines that start with a colon-terminated field tag. -/
def afterColon : List Char → List Char
  | [] => []
  | c :: rest => if c == ':' then rest else afterColon rest

/-- Python `line.split(':', 1)[1].strip()`. -/
def fieldValue (line : List Char) : List Char :=
  pyStrip (afterColon line)

/-- Python `text.split('\n')` (keeps empty pieces; `"".split('\n') == [""]`). -/
def splitNL : List Char → List (List Char)
  | [] => [[]]
  | c :: rest =>
    if c == '\n' then [] :: splitNL rest
    else
      match splitNL rest with
      | [] => [[c]]
      | l :: ls => (c :: l) :: ls

/-- Python `' '.join(pieces)`. -/
def joinSpace : List (List Char) → List Char
  | [] => []
  | [x] => x
  | x :: xs => x ++ ' ' :: joinSpace xs

/-- Python `needle in haystack` (substring containment). -/
def containsSub (needle : List Char) : List Char → Bool
  | [] => needle.isEmpty
  | c :: rest => startsWithChars needle (c :: rest) || containsSub needle rest

/-- The six-field result produced by `analyze_political_leaning`, in the order
of the Python return tuple
`(classification, confidence, reasoning, tags, notes, summary)`. -/
structure AnalysisResult where
  classification : List Char
  confidence : List Char
  reasoning : List Char
  tags : List Char
  notes : List Char
  summary : List Char
deriving DecidableEq

/-- Mutable parse-loop state of `analyze_political_leaning` (lines 240-270 of
`supreme_court_decisions.py`; identical code at lines 113-144 of
`supreme_court_analyzer.py`). -/
structure ParseState where
  classification : List Char
  confidence : List Char
  tags : List Char
  notes : List Char
  reasoning : List Char
  in_summary : Bool
  summary_lines : List (List Char)
deriving DecidableEq

def pfxClassification : List Char := "Classification:".data
def pfxConfidence : List Char := "Confidence:".data
def pfxTags : List Char := "Tags:".data
def pfxNotes : List Char := "Notes:".data
def pfxSummary : List Char := "Summary:".data
def pfxReasoning : List Char := "Reasoning:".data

/-- One iteration of the `for line in lines` parse loop, branch for branch. -/
def parseStep (st : ParseState) (line : List Char) : ParseState :=
  if startsWithChars pfxClassification line then
    { st with classification := fieldValue line }
  else if startsWithChars pfxConfidence line then
    { st with confidence := fieldValue line }
  else if startsWithChars pfxTags line then
    { st with tags := fieldValue line }
  else if startsWithChars pfxNotes line then
    { st with notes := fieldValue line }
  else if startsWithChars pfxSummary line then
    let summary_part := fieldValue line
    { st with in_summary := true,
              summary_lines :=
                if summary_part.isEmpty then st.summary_lines
                else st.summary_lines ++ [summary_part] }
  else if startsWithChars pfxReasoning line then
    { st with in_summary := false, reasoning := fieldValue line }
  else if st.in_summary && !(pyStrip line).isEmpty then
    { st with summary_lines := st.summary_lines ++ [pyStrip line] }
  else st

/-- Initial values of the parse variables (`classification = "Unknown"`,
`confidence = "N/A"`, `tags = ""`, `notes = ""`, `reasoning = "N/A"`,
`in_summary = False`, `summary_lines = []`). -/
def initState : ParseState :=
  { classification := "Unknown".data, confidence := "N/A".data, tags := [],
    notes := [], reasoning := "N/A".data, in_summary := false,
    summary_lines := [] }

/-- Run the parse loop over the response lines and assemble the result,
including `summary = ' '.join(summary_lines) if summary_lines else
"No summary available"`. -/
def parseLines (lines : List (List Char)) : AnalysisResult :=
  let st := lines.foldl parseStep initState
  { classification := st.classification, confidence := st.confidence,
    reasoning := st.reasoning, tags := st.tags, notes := st.notes,
    summary :=
      if st.summary_lines.isEmpty then "No summary available".data
      else joinSpace st.summary_lines }

/-- `result_text = response.text.strip(); lines = result_text.split('\n')`
followed by the parse loop. -/
def parse_response (result_text : List Char) : AnalysisResult :=
  parseLines (splitNL (pyStrip result_text))

/-- Outcome of one call to `analyze_political_leaning`: the returned tuple
plus the observable remote-call count and cooldown-wait count. -/
structure AnalyzeOutcome where
  result : AnalysisResult
  calls : Nat
  waits : Nat
deriving DecidableEq

/-- `("Error", "N/A", "Gemini client not initialized", "", "", "No analysis
available")`. -/
def clientErrorResult : AnalysisResult :=
  { classification := "Error".data, confidence := "N/A".data,
    reasoning := "Gemini client not initialized".data, tags := [], notes := [],
    summary := "No analysis available".data }

/-- `("Insufficient Text", "N/A", "Not enough text to analyze", "", "",
"No text available for summary")`. -/
def insufficientTextResult : AnalysisResult :=
  { classification := "Insufficient Text".data, confidence := "N/A".data,
    reasoning := "Not enough text to analyze".data, tags := [], notes := [],
    summary := "No text available for summary".data }

/-- `("Error", "N/A", str(e), "", "", "Error generating summary")`. -/
def geminiErrorResult (e : List Char) : AnalysisResult :=
  { classification := "Error".data, confidence := "N/A".data, reasoning := e,
    tags := [], notes := [], summary := "Error generating summary".data }

/-- `'429' in error_str or 'RESOURCE_EXHAUSTED' in error_str`. -/
def isRateLimitError (e : List Char) : Bool :=
  containsSub "429".data e || containsSub "RESOURCE_EXHAUSTED".data e

def max_retries : Nat := 2

/-- The `for attempt in range(max_retries)` loop of
`analyze_political_leaning` (lines 231-287). `attempts` is the list of
remaining attempt indices; `oracle` gives, per attempt index, either the
response text (`Except.ok`) or the raised exception's message
(`Except.error`). Returns the result together with the number of remote
calls made and the number of 60-second cooldown sleeps taken. The retry
branch fires only when the error is a rate-limit signal and this is not the
last attempt (`attempt < max_retries - 1`, i.e. the remaining-index list is
nonempty); the fall-through return after the loop is the "Max retries
exceeded" error result. -/
def attemptLoop (oracle : Nat → Except (List Char) (List Char)) :
    List Nat → AnalysisResult × Nat × Nat
  | [] => (geminiErrorResult "Max retries exceeded".data, 0, 0)
  | attempt :: rest =>
    match oracle attempt with
    | Except.ok t => (parse_response t, 1, 0)
    | Except.error e =>
      if isRateLimitError e && !rest.isEmpty then
        let r := attemptLoop oracle rest
        (r.1, r.2.1 + 1, r.2.2 + 1)
      else (geminiErrorResult e, 1, 0)

/-- `analyze_political_leaning(case_name, decision_text)` of
`supreme_court_decisions.py` (lines 186-287). `clientOk` models whether the
module-level Gemini `client` is non-None; `oracle` models the
`client.models.generate_content` call per attempt. The case name feeds only
the prompt text, so it does not influence the modelled control flow. -/
def analyze_political_leaning (clientOk : Bool)
    (case_name decision_text : List Char)
    (oracle : Nat → Except (List Char) (List Char)) : AnalyzeOutcome :=
  if !clientOk then ⟨clientErrorResult, 0, 0⟩
  else if decision_text.isEmpty || decision_text.length < 200 then
    ⟨insufficientTextResult, 0, 0⟩
  else
    let r := attemptLoop oracle (List.range max_retries)
    ⟨r.1, r.2.1, r.2.2⟩

namespace Analyzer

/-- `("Insufficient text", "N/A", ...)` — note the lowercase `text` in
`supreme_court_analyzer.py`, and the 100-character threshold. -/
def insufficientTextResult : AnalysisResult :=
  { classification := "Insufficient text".data, confidence := "N/A".data,
    reasoning := "Not enough text to analyze".data, tags := [], notes := [],
    summary := "No text available for summary".data }

/-- `analyze_political_leaning(case_name, decision_text)` of
`supreme_court_analyzer.py` (lines 68-152): guard threshold 100, a single
`model.generate_content` call with no retry loop, identical parsing code. -/
def analyze_political_leaning (case_name decision_text : List Char)
    (oracle : Except (List Char) (List Char)) : AnalyzeOutcome :=
  if decision_text.isEmpty || decision_text.length < 100 then
    ⟨insufficientTextResult, 0, 0⟩
  else
    match oracle with
    | Except.ok t => ⟨parse_response t, 1, 0⟩
    | Except.error e => ⟨geminiErrorResult e, 1, 0⟩

end Analyzer

/-- One enriched record as persisted by the pipeline (the dict built in
`main`, lines 424-443, restricted to the fields the claims mention). -/
structure Row where
  opinion_id : String
  classification : List Char
  confidence : List Char
  tags : List Char
  notes : List Char
  summary : List Char
  reasoning : List Char
  text_length : Nat
deriving DecidableEq

/-- A CSV file on disk: how many header lines it starts with, and its data
rows. -/
structure CsvFile where
  headers : Nat
  rows : List Row
deriving DecidableEq

/-- The JSON store's parsed content: `Except.error ()` models a file that
exists but on which `json.load` raises (unreadable or malformed). -/
abbrev JsonFile := Except Unit (List Row)

/-- The file system: CSV files and JSON files, keyed by filename. -/
structure FS where
  csvs : String → Option CsvFile
  jsons : String → Option JsonFile

def FS.empty : FS := ⟨fun _ => none, fun _ => none⟩

def FS.writeCsv (fs : FS) (name : String) (f : CsvFile) : FS :=
  ⟨fun n => if n = name then some f else fs.csvs n, fs.jsons⟩

def FS.writeJson (fs : FS) (name : String) (j : JsonFile) : FS :=
  ⟨fs.csvs, fun n => if n = name then some j else fs.jsons n⟩

/-- Default filename of `save_to_csv` (line 320). -/
def save_csv_filename : String := "supreme_court_decisions.csv"

/-- Default filename of `save_to_json` (line 345). -/
def save_json_filename : String := "supreme_court_decisions.json"

/-- Default CSV filename of `load_existing_data` (line 290). -/
def load_csv_filename : String := "supreme_court_decisions_datefilter.csv"

/-- Default JSON filename of `load_existing_data` (line 290). -/
def load_json_filename : String := "supreme_court_decisions_datefilter.json"

/-- `load_existing_data` (lines 290-317): union of the opinion ids found in
the CSV store and the JSON store; a store that is absent, or a JSON store on
which `json.load` raises, contributes nothing (the exception is caught with
a warning). Membership in the returned list models membership in the Python
set. -/
def load_existing_data (fs : FS) (csv_filename json_filename : String) :
    List String :=
  let csvIds :=
    match fs.csvs csv_filename with
    | some f => f.rows.map Row.opinion_id
    | none => []
  let jsonIds :=
    match fs.jsons json_filename with
    | some (Except.ok items) => items.map Row.opinion_id
    | _ => []
  csvIds ++ jsonIds

/-- `save_to_csv` (lines 320-342): append mode when the file exists, else
create it and write the header once before the rows. -/
def save_to_csv (decisions_data : List Row) (fs : FS) (filename : String) :
    FS :=
  match fs.csvs filename with
  | some f => fs.writeCsv filename ⟨f.headers, f.rows ++ decisions_data⟩
  | none => fs.writeCsv filename ⟨1, decisions_data⟩

/-- `save_to_json` (lines 345-362): load the existing list (treating a
missing or unreadable file as empty, with a warning), concatenate the new
batch, rewrite the whole file. -/
def save_to_json (decisions_data : List Row) (fs : FS) (filename : String) :
    FS :=
  let existing_data : List Row :=
    match fs.jsons filename with
    | some (Except.ok items) => items
    | _ => []
  fs.writeJson filename (Except.ok (existing_data ++ decisions_data))

/-- The data rows of a CSV store (empty when the file is absent). -/
def csvRows (fs : FS) (name : String) : List Row :=
  match fs.csvs name with
  | some f => f.rows
  | none => []

/-- The number of header lines of a CSV store (0 when the file is absent). -/
def csvHeaders (fs : FS) (name : String) : Nat :=
  match fs.csvs name with
  | some f => f.headers
  | none => 0

/-- The record list of a JSON store (empty when absent or unreadable). -/
def jsonRecords (fs : FS) (name : String) : List Row :=
  match fs.jsons name with
  | some (Except.ok items) => items
  | _ => []

/-- A decision as returned by `fetch_recent_decisions`, restricted to the
fields the claims mention. -/
structure Decision where
  opinion_id : String
  case_name : List Char
  author : List Char
  plain_text : List Char
deriving DecidableEq

/-- The record literal appended at lines 157-169 of
`fetch_recent_decisions`: `plain_text` is `text[:15000]`. -/
def build_decision (opinion_id : String) (case_name author text : List Char) :
    Decision :=
  { opinion_id := opinion_id, case_name := case_name, author := author,
    plain_text := text.take 15000 }

/-- The enriched record `main` builds for one new decision (lines 424-443):
classification fields from the analysis result, `text_length =
len(decision['plain_text'])`. -/
def toRow (res : AnalysisResult) (d : Decision) : Row :=
  { opinion_id := d.opinion_id, classification := res.classification,
    confidence := res.confidence, tags := res.tags, notes := res.notes,
    summary := res.summary, reasoning := res.reasoning,
    text_length := d.plain_text.length }

/-- `main()` (lines 365-457). The remote fetch is abstracted by the
`decisions` parameter (two runs over identical remote source data pass the
same list); `clientOk` models the credential / client checks at lines
376-386 (keys present and Gemini client initialized); `gen` gives each
decision's classification-service responses per attempt. Returns the
updated file system and the number of records classified (and persisted) by
this run. Note that `main` calls `load_existing_data()` with its default
`_datefilter` filenames but `save_to_csv` / `save_to_json` with their own,
distinct, default filenames. -/
def main_run (clientOk : Bool)
    (gen : Decision → Nat → Except (List Char) (List Char))
    (decisions : List Decision) (fs : FS) : FS × Nat :=
  if !clientOk then (fs, 0)
  else if decisions.isEmpty then (fs, 0)
  else
    let existing_ids := load_existing_data fs load_csv_filename load_json_filename
    let new_decisions :=
      decisions.filter (fun d => !existing_ids.contains d.opinion_id)
    if new_decisions.isEmpty then (fs, 0)
    else
      let analyzed := new_decisions.map (fun d =>
        toRow (analyze_political_leaning true d.case_name d.plain_text (gen d)).result d)
      let fs1 := save_to_csv analyzed fs save_csv_filename
      let fs2 := save_to_json analyzed fs1 save_json_filename
      (fs2, new_decisions.length)

/-- Cluster metadata used by the author fallback (fields requested at line
99: `author_str`, `per_curiam`, `judges`, ...). -/
structure Cluster where
  author_str : List Char
  judges : List Char
  per_curiam : Bool
deriving DecidableEq

/-- Author extraction in `fetch_recent_decisions` (lines 114-133).
`cluster` is `none` when `cluster_data` is the empty dict (no cluster URL,
or the nested fetch failed); `res_per_curiam` is the opinion-level
`per_curiam` flag (on the empty dict, `cluster_data.get('per_curiam')` is
falsy). -/
def resolve_author (res_author : List Char) (res_per_curiam : Bool)
    (cluster : Option Cluster) : List Char :=
  let author := pyStrip res_author
  let author :=
    if author.isEmpty then
      match cluster with
      | some c => pyStrip c.author_str
      | none => author
    else author
  let author :=
    if author.isEmpty then
      match cluster with
      | some c =>
        let judges := pyStrip c.judges
        if !judges.isEmpty then judges else author
      | none => author
    else author
  if author.isEmpty then
    let per_curiam :=
      res_per_curiam ||
        (match cluster with | some c => c.per_curiam | none => false)
    if per_curiam then "Per Curiam".data else "Per Curiam (unsigned)".data
  else author

/-- The cluster-level author string, stripped; empty when the cluster is
absent. -/
def clusterAuthor (cluster : Option Cluster) : List Char :=
  match cluster with
  | some c => pyStrip c.author_str
  | none => []

/-- The cluster-level judges string, stripped; empty when the cluster is
absent. -/
def clusterJudges (cluster : Option Cluster) : List Char :=
  match cluster with
  | some c => pyStrip c.judges
  | none => []

/-- The cluster-level per-curiam flag; false when the cluster is absent. -/
def clusterPerCuriam (cluster : Option Cluster) : Bool :=
  match cluster with
  | some c => c.per_curiam
  | none => false

/-- The author fallback chain as the spec words it (§4.1): first non-absent
of the opinion-level author string, the cluster-level author string, and the
judges/panel field; then the per-curiam marker; else the unknown-author
sentinel (the source's `'Per Curiam (unsigned)'` default). -/
def author_fallback_spec (res_author : List Char) (res_per_curiam : Bool)
    (cluster : Option Cluster) : List Char :=
  if !(pyStrip res_author).isEmpty then pyStrip res_author
  else if !(clusterAuthor cluster).isEmpty then clusterAuthor cluster
  else if !(clusterJudges cluster).isEmpty then clusterJudges cluster
  else if res_per_curiam || clusterPerCuriam cluster then "Per Curiam".data
  else "Per Curiam (unsigned)".data

/-- A sample remote-response generator: every call answers with a minimal
well-formed classification response. -/
def c1Gen : Decision → Nat → Except (List Char) (List Char) :=
  fun _ _ => Except.ok "Classification: Center".data

/-- A sample fetched decision with enough text to pass the guard. -/
def c1Decision : Decision :=
  build_decision "101" "Test v. Case".data "Roberts".data
    (List.replicate 250 'x')

/-- A sample persisted record. -/
def rowW : Row :=
  { opinion_id := "7", classification := "Center".data,
    confidence := "Low".data, tags := [], notes := [],
    summary := "S.".data, reasoning := "R.".data, text_length := 300 }

/-- A second sample persisted record. -/
def rowW2 : Row :=
  { opinion_id := "8", classification := "Liberal".data,
    confidence := "High".data, tags := "Privacy".data, notes := [],
    summary := "T.".data, reasoning := "Q.".data, text_length := 250 }

/-- A file system whose stores already hold one record. -/
def fsWitness : FS :=
  ⟨fun n => if n = save_csv_filename then some ⟨1, [rowW]⟩ else none,
   fun n => if n = save_json_filename then some (Except.ok [rowW]) else none⟩

/-- A file system whose JSON store exists but is malformed. -/
def malformedFS : FS :=
  ⟨fun _ => none,
   fun n => if n = save_json_filename then some (Except.error ()) else none⟩

/-- A synthetic response whose `Summary:` value spans three lines before
`Reasoning:`. -/
def c5Response : List Char :=
  ("Classification: Center\nConfidence: High\nTags: Privacy\n"
    ++ "Notes: Privacy - data handling\nSummary: Line one.\nLine two.\n"
    ++ "Line three.\nReasoning: Balanced result.").data

/-- A synthetic response where a recognized prefix (`Tags:`) appears between
the `Summary:` line and a trailing plain line. -/
def c5CounterResponse : List Char :=
  "Summary: First part.\nTags: Privacy\nTrailing line.".data

/-- The six prefixed lines of a well-formed response, in canonical order. -/
def c6Lines : List (List Char) :=
  ["Classification: Liberal".data, "Confidence: High".data,
   "Tags: First Amendment;Privacy".data, "Notes: Privacy - applies".data,
   "Summary: A short summary.".data, "Reasoning: Clear alignment.".data]

/-- The six parsed fields expected from any ordering of `c6Lines`. -/
def c6Expected : AnalysisResult :=
  { classification := "Liberal".data, confidence := "High".data,
    reasoning := "Clear alignment.".data,
    tags := "First Amendment;Privacy".data,
    notes := "Privacy - applies".data,
    summary := "A short summary.".data }

/-- `c6Lines` with `Tags:` moved in front of `Classification:` (the spec's
out-of-canonical-order example). -/
def c6Shuffled : List (List Char) :=
  ["Tags: First Amendment;Privacy".data, "Classification: Liberal".data,
   "Confidence: High".data, "Notes: Privacy - applies".data,
   "Summary: A short summary.".data, "Reasoning: Clear alignment.".data]

/-- `c6Lines` without its `Confidence:` line. -/
def c6NoConfidence : List (List Char) :=
  ["Classification: Liberal".data, "Tags: First Amendment;Privacy".data,
   "Notes: Privacy - applies".data, "Summary: A short summary.".data,
   "Reasoning: Clear alignment.".data]

/-- An oracle that rate-limits on the first attempt and succeeds on the
second. -/
def c3Oracle : Nat → Except (List Char) (List Char) :=
  fun n =>
    if n = 0 then Except.error "429 RESOURCE_EXHAUSTED: quota".data
    else Except.ok "Classification: Center".data

example : pyStrip "  ab c  ".data = "ab c".data := by decide

example : splitNL "a\nb".data = ["a".data, "b".data] := by decide

example :
    parse_response "Classification: Liberal\nConfidence: High".data
      = { classification := "Liberal".data, confidence := "High".data,
          reasoning := "N/A".data, tags := [], notes := [],
          summary := "No summary available".data } := by decide

/-- Any nonempty attempt list performs at least one remote call. -/
theorem attemptLoop_calls_pos (oracle : Nat → Except (List Char) (List Char))
    (a : Nat) (rest : List Nat) :
    1 ≤ (attemptLoop oracle (a :: rest)).2.1 := by
  cases h : oracle a with
  | ok t => simp [attemptLoop, h]
  | error e =>
    simp only [attemptLoop, h]
    split
    · simp
    · simp

/-- With 200 or more characters of text and an initialized client, the
guard falls through and the retry loop runs on attempts `[0, 1]`. -/
theorem analyze_political_leaning_of_long (case_name text : List Char)
    (oracle : Nat → Except (List Char) (List Char))
    (h : 200 ≤ text.length) :
    analyze_political_leaning true case_name text oracle
      = ⟨(attemptLoop oracle [0, 1]).1, (attemptLoop oracle [0, 1]).2.1,
         (attemptLoop oracle [0, 1]).2.2⟩ := by
  have h1 : text.isEmpty = false := by
    cases text with
    | nil => simp at h
    | cons x xs => rfl
  have h2 : ¬ text.length < 200 := by omega
  have hrange : List.range max_retries = [0, 1] := by decide
  simp [analyze_political_leaning, h1, h2, hrange]

/-- Closed form of the two-attempt retry loop. -/
theorem attemptLoop_two (oracle : Nat → Except (List Char) (List Char)) :
    attemptLoop oracle [0, 1]
      = match oracle 0 with
        | Except.ok t => (parse_response t, 1, 0)
        | Except.error e =>
          if isRateLimitError e then
            match oracle 1 with
            | Except.ok t => (parse_response t, 2, 1)
            | Except.error e2 => (geminiErrorResult e2, 2, 1)
          else (geminiErrorResult e, 1, 0) := by
  cases h0 : oracle 0 with
  | ok t => simp [attemptLoop, h0]
  | error e =>
    cases h1 : oracle 1 with
    | ok t => simp [attemptLoop, h0, h1]
    | error e2 => simp [attemptLoop, h0, h1]

/-- C9: when the Gemini client failed to initialize, every call to
`analyze_political_leaning` — including one with empty or too-short text —
returns the "Error" sentinel carrying "Gemini client not initialized",
performs no remote call, and never reaches the insufficient-text guard: the
client check precedes the text-length guard. -/
theorem c9_client_check_precedes_guard (case_name text : List Char)
    (oracle : Nat → Except (List Char) (List Char)) :
    analyze_political_leaning false case_name text oracle
      = ⟨clientErrorResult, 0, 0⟩ ∧
    analyze_political_leaning false case_name text oracle
      ≠ ⟨insufficientTextResult, 0, 0⟩ := by
  have h : analyze_political_leaning false case_name text oracle
      = ⟨clientErrorResult, 0, 0⟩ := by
    simp [analyze_political_leaning]
  refine ⟨h, ?_⟩
  rw [h]
  decide

/-- C8: every decision built by `fetch_recent_decisions` has a `plain_text`
of at most 15000 characters, so the `text_length` recorded for a persisted
record never exceeds 15000. -/
theorem c8_text_budget (oid : String) (case_name author text : List Char)
    (res : AnalysisResult) :
    (build_decision oid case_name author text).plain_text.length ≤ 15000 ∧
    (toRow res (build_decision oid case_name author text)).text_length
      ≤ 15000 := by
  have h : (build_decision oid case_name author text).plain_text.length
      ≤ 15000 := by
    simp [build_decision]
  exact ⟨h, by simpa [toRow] using h⟩

/-- C10: if the JSON store exists but `json.load` raises on it,
`save_to_json` treats the existing content as empty and rewrites the file
holding only the new batch, silently discarding the previously persisted
records. -/
theorem c10_malformed_json_overwritten (fs : FS) (name : String)
    (batch : List Row) (h : fs.jsons name = some (Except.error ())) :
    (save_to_json batch fs name).jsons name = some (Except.ok batch) := by
  simp [save_to_json, FS.writeJson, h]

/-- Witness for C10: a malformed JSON store is rewritten to exactly the new
one-record batch. -/
theorem c10_witness :
    (save_to_json [rowW] malformedFS save_json_filename).jsons
        save_json_filename = some (Except.ok [rowW]) :=
  c10_malformed_json_overwritten malformedFS save_json_filename [rowW]
    (by simp [malformedFS])

/-- C7: the author of a fetched opinion is resolved by trying, in order,
the opinion-level author string, the cluster-level author string, the
cluster judges field, and the per-curiam marker; when all are absent the
author is the `'Per Curiam (unsigned)'` unknown-author sentinel. -/
theorem c7_author_fallback_chain (res_author : List Char)
    (res_per_curiam : Bool) (cluster : Option Cluster) :
    resolve_author res_author res_per_curiam cluster
      = author_fallback_spec res_author res_per_curiam cluster := by
  cases cluster with
  | none =>
    simp only [resolve_author, author_fallback_spec, clusterAuthor,
      clusterJudges, clusterPerCuriam]
    split_ifs <;> simp_all
  | some c =>
    simp only [resolve_author, author_fallback_spec, clusterAuthor,
      clusterJudges, clusterPerCuriam]
    split_ifs <;> simp_all

/-- C2 counterexample: in `supreme_court_analyzer.py` the guard threshold
is 100 rather than 200, so a 150-character text does not yield the
insufficient-text sentinel and does trigger a remote call, refuting the
claim that every text shorter than 200 characters is guarded. -/
theorem c2_counterexample :
    (List.replicate 150 'a').length < 200 ∧
    (Analyzer.analyze_political_leaning "X".data (List.replicate 150 'a')
        (Except.ok "Classification: Center".data)).result
      ≠ Analyzer.insufficientTextResult ∧
    (Analyzer.analyze_political_leaning "X".data (List.replicate 150 'a')
        (Except.ok "Classification: Center".data)).calls = 1 := by decide

/-- C2 (amended): in `supreme_court_decisions.py` (with the client
initialized) the guard threshold is 200 — absent or shorter text returns
the "Insufficient Text" sentinel with no remote call, and text of 200 or
more characters reaches a remote call; in `supreme_court_analyzer.py` the
same guard has threshold 100 and sentinel "Insufficient text". -/
theorem c2_insufficient_text_guard (case_name text : List Char)
    (oracle : Nat → Except (List Char) (List Char))
    (oracleA : Except (List Char) (List Char)) :
    (text.length < 200 →
      analyze_political_leaning true case_name text oracle
        = ⟨insufficientTextResult, 0, 0⟩) ∧
    (200 ≤ text.length →
      1 ≤ (analyze_political_leaning true case_name text oracle).calls) ∧
    (text.length < 100 →
      Analyzer.analyze_political_leaning case_name text oracleA
        = ⟨Analyzer.insufficientTextResult, 0, 0⟩) ∧
    (100 ≤ text.length →
      (Analyzer.analyze_political_leaning case_name text oracleA).calls
        = 1) := by
  refine ⟨?_, ?_, ?_, ?_⟩
  · intro h
    simp [analyze_political_leaning, h]
  · intro h
    rw [analyze_political_leaning_of_long case_name text oracle h]
    exact attemptLoop_calls_pos oracle 0 [1]
  · intro h
    simp [Analyzer.analyze_political_leaning, h]
  · intro h
    have h1 : text.isEmpty = false := by
      cases text with
      | nil => simp at h
      | cons x xs => rfl
    have h2 : ¬ text.length < 100 := by omega
    cases oracleA with
    | ok t => simp [Analyzer.analyze_political_leaning, h1, h2]
    | error e => simp [Analyzer.analyze_political_leaning, h1, h2]

/-- Witness for C2: a 199-character text is guarded in
`supreme_court_decisions.py`; a 250-character text reaches exactly one
remote call in `supreme_court_analyzer.py`. -/
theorem c2_witness :
    analyze_political_leaning true "X".data (List.replicate 199 'a')
        (fun _ => Except.error "boom".data)
      = ⟨insufficientTextResult, 0, 0⟩ ∧
    (Analyzer.analyze_political_leaning "X".data (List.replicate 250 'a')
        (Except.ok "Classification: Center".data)).calls = 1 :=
  ⟨(c2_insufficient_text_guard "X".data (List.replicate 199 'a')
      (fun _ => Except.error "boom".data)
      (Except.ok "Classification: Center".data)).1 (by decide),
   (c2_insufficient_text_guard "X".data (List.replicate 250 'a')
      (fun _ => Except.error "boom".data)
      (Except.ok "Classification: Center".data)).2.2.2 (by decide)⟩

/-- C3: with usable text, `analyze_political_leaning` makes at most 2
remote attempts and at most one 60-second cooldown wait; a rate-limit
failure ("429"/"RESOURCE_EXHAUSTED") followed by a success yields the
successful parsed result after exactly one cooldown; any other failure —
or a rate-limit failure on the final attempt — returns the "Error"
sentinel carrying the failure description; a first-attempt success makes
exactly one call and no wait. The function is total, so no exception
propagates to the caller. -/
theorem c3_rate_limit_retry (case_name text : List Char)
    (oracle : Nat → Except (List Char) (List Char))
    (hlen : 200 ≤ text.length) :
    (analyze_political_leaning true case_name text oracle).calls ≤ 2 ∧
    (analyze_political_leaning true case_name text oracle).waits ≤ 1 ∧
    (∀ e t, oracle 0 = Except.error e → isRateLimitError e = true →
      oracle 1 = Except.ok t →
      analyze_political_leaning true case_name text oracle
        = ⟨parse_response t, 2, 1⟩) ∧
    (∀ e, oracle 0 = Except.error e → isRateLimitError e = false →
      analyze_political_leaning true case_name text oracle
        = ⟨geminiErrorResult e, 1, 0⟩) ∧
    (∀ e e2, oracle 0 = Except.error e → isRateLimitError e = true →
      oracle 1 = Except.error e2 →
      analyze_political_leaning true case_name text oracle
        = ⟨geminiErrorResult e2, 2, 1⟩) ∧
    (∀ t, oracle 0 = Except.ok t →
      analyze_political_leaning true case_name text oracle
        = ⟨parse_response t, 1, 0⟩) := by
  rw [analyze_political_leaning_of_long case_name text oracle hlen,
    attemptLoop_two oracle]
  refine ⟨?_, ?_, ?_, ?_, ?_, ?_⟩
  · cases h0 : oracle 0 with
    | ok t => simp
    | error e =>
      simp only
      split
      · cases h1 : oracle 1 with
        | ok t => simp
        | error e2 => simp
      · simp
  · cases h0 : oracle 0 with
    | ok t => simp
    | error e =>
      simp only
      split
      · cases h1 : oracle 1 with
        | ok t => simp
        | error e2 => simp
      · simp
  · intro e t h0 hrl h1
    simp [h0, h1, hrl]
  · intro e h0 hrl
    simp [h0, hrl]
  · intro e e2 h0 hrl h1
    simp [h0, h1, hrl]
  · intro t h0
    simp [h0]

/-- Witness for C3: one rate-limit failure then a success yields the parsed
successful result with 2 calls and exactly 1 cooldown wait. -/
theorem c3_witness :
    analyze_political_leaning true "X".data (List.replicate 250 'a') c3Oracle
      = ⟨parse_response "Classification: Center".data, 2, 1⟩ :=
  (c3_rate_limit_retry "X".data (List.replicate 250 'a') c3Oracle
      (by decide)).2.2.1 "429 RESOURCE_EXHAUSTED: quota".data
    "Classification: Center".data rfl (by decide) rfl

/-- C4: persisting a batch of N ≥ 1 records appends exactly those N rows to
the CSV store, writes the header exactly once and only when the file is
first created, rewrites the JSON store to its previous record sequence
concatenated with the batch, and both stores gain the same opinion-id
sequence (the batch's). -/
theorem c4_persistence_postcondition (fs : FS) (batch : List Row)
    (csvName jsonName : String) (hne : batch ≠ [])
    (hjson : fs.jsons jsonName ≠ some (Except.error ())) :
    csvRows (save_to_csv batch fs csvName) csvName
        = csvRows fs csvName ++ batch ∧
    csvHeaders (save_to_csv batch fs csvName) csvName
        = (if (fs.csvs csvName).isSome then csvHeaders fs csvName else 1) ∧
    jsonRecords (save_to_json batch (save_to_csv batch fs csvName) jsonName)
          jsonName
        = jsonRecords fs jsonName ++ batch ∧
    (csvRows (save_to_csv batch fs csvName) csvName).map Row.opinion_id
        = (csvRows fs csvName).map Row.opinion_id
            ++ batch.map Row.opinion_id ∧
    (jsonRecords (save_to_json batch (save_to_csv batch fs csvName) jsonName)
          jsonName).map Row.opinion_id
        = (jsonRecords fs jsonName).map Row.opinion_id
            ++ batch.map Row.opinion_id := by
  have hjs : (save_to_csv batch fs csvName).jsons = fs.jsons := by
    unfold save_to_csv
    cases fs.csvs csvName <;> rfl
  have hcsv : csvRows (save_to_csv batch fs csvName) csvName
      = csvRows fs csvName ++ batch := by
    unfold csvRows save_to_csv FS.writeCsv
    cases fs.csvs csvName <;> simp
  have hjrec : jsonRecords
      (save_to_json batch (save_to_csv batch fs csvName) jsonName) jsonName
      = jsonRecords fs jsonName ++ batch := by
    unfold jsonRecords save_to_json FS.writeJson
    rw [hjs]
    cases h : fs.jsons jsonName with
    | none => simp
    | some j =>
      cases j with
      | ok items => simp
      | error u => simp
  refine ⟨hcsv, ?_, hjrec, ?_, ?_⟩
  · unfold csvHeaders save_to_csv FS.writeCsv
    cases fs.csvs csvName <;> simp
  · rw [hcsv, List.map_append]
  · rw [hjrec, List.map_append]

/-- Witness for C4: appending a one-record batch to stores already holding
one record yields two CSV rows, an unchanged single header, and the JSON
record list extended by the batch. -/
theorem c4_witness :
    csvRows (save_to_csv [rowW2] fsWitness save_csv_filename)
        save_csv_filename
      = csvRows fsWitness save_csv_filename ++ [rowW2] ∧
    csvHeaders (save_to_csv [rowW2] fsWitness save_csv_filename)
        save_csv_filename
      = (if (fsWitness.csvs save_csv_filename).isSome then
          csvHeaders fsWitness save_csv_filename else 1) ∧
    jsonRecords (save_to_json [rowW2]
          (save_to_csv [rowW2] fsWitness save_csv_filename)
          save_json_filename) save_json_filename
      = jsonRecords fsWitness save_json_filename ++ [rowW2] ∧
    (csvRows (save_to_csv [rowW2] fsWitness save_csv_filename)
          save_csv_filename).map Row.opinion_id
      = (csvRows fsWitness save_csv_filename).map Row.opinion_id
          ++ [rowW2].map Row.opinion_id ∧
    (jsonRecords (save_to_json [rowW2]
          (save_to_csv [rowW2] fsWitness save_csv_filename)
          save_json_filename) save_json_filename).map Row.opinion_id
      = (jsonRecords fsWitness save_json_filename).map Row.opinion_id
          ++ [rowW2].map Row.opinion_id :=
  c4_persistence_postcondition fsWitness [rowW2] save_csv_filename
    save_json_filename (by simp) (by simp [fsWitness])

/-- C5 counterexample: summary accumulation does not stop at every
recognized field prefix — after `Summary:` and an intervening `Tags:` line,
a trailing plain line is still appended to the summary, because only
`Reasoning:` clears the in-summary flag. -/
theorem c5_counterexample :
    (parse_response c5CounterResponse).summary
        = "First part. Trailing line.".data ∧
    (parse_response c5CounterResponse).summary ≠ "First part.".data := by
  decide

/-- C5 (amended): the parser accumulates the `Summary:` line's content and
every subsequent non-empty line, joined by single spaces; lines carrying a
recognized prefix are parsed into their own fields and only `Reasoning:`
ends the accumulation. In particular, for a response whose `Summary:` spans
three lines before `Reasoning:`, the summary equals the three lines joined
by single spaces and the reasoning contains none of them. -/
theorem c5_multiline_summary :
    (parse_response c5Response).summary
        = "Line one. Line two. Line three.".data ∧
    (parse_response c5Response).reasoning = "Balanced result.".data ∧
    containsSub "Line one.".data (parse_response c5Response).reasoning
        = false ∧
    containsSub "Line two.".data (parse_response c5Response).reasoning
        = false ∧
    containsSub "Line three.".data (parse_response c5Response).reasoning
        = false := by
  decide

/-- C1 (code bug): `main` persists through `save_to_csv`/`save_to_json`
under their default filenames but calls `load_existing_data()` with its
distinct `_datefilter` default filenames, so the ids persisted by the first
run are invisible to the second run: over identical remote source data the
second run classifies 1 record (not 0) and appends a duplicate row instead
of skipping the already-persisted opinion id. -/
theorem c1_second_run_reclassifies :
    (main_run true c1Gen [c1Decision] FS.empty).2 = 1 ∧
    load_existing_data (main_run true c1Gen [c1Decision] FS.empty).1
        load_csv_filename load_json_filename = [] ∧
    (main_run true c1Gen [c1Decision]
        (main_run true c1Gen [c1Decision] FS.empty).1).2 = 1 ∧
    (csvRows (main_run true c1Gen [c1Decision]
        (main_run true c1Gen [c1Decision] FS.empty).1).1
        save_csv_filename).length = 2 := by
  decide

/-- C6: the six output fields parse identically under every ordering of the
six prefixed response lines; with `Confidence:` absent the confidence field
resolves to its "N/A" default; with an empty response every field resolves
to its named sentinel default; the parser is a total function, so it never
raises. -/
theorem c6_parser_order_and_defaults :
    (∀ ls, List.Perm ls c6Lines → parseLines ls = c6Expected) ∧
    (parseLines c6NoConfidence).confidence = "N/A".data ∧
    parseLines []
      = { classification := "Unknown".data, confidence := "N/A".data,
          reasoning := "N/A".data, tags := [], notes := [],
          summary := "No summary available".data } := by
  have key : ∀ ls ∈ c6Lines.permutations', parseLines ls = c6Expected := by
    decide
  refine ⟨?_, by decide, by decide⟩
  intro ls h
  exact key ls (List.mem_permutations'.mpr h)

/-- Witness for C6: the order with `Tags:` ahead of `Classification:`
parses all six fields correctly. -/
theorem c6_witness : parseLines c6Shuffled = c6Expected :=
  c6_parser_order_and_defaults.1 c6Shuffled (by decide)

end CourtTracker
